import Mathlib

/-!
Shallow embedding of `src/src/app/highlight.directive.ts`.

The directive holds two string fields: `highlightColor` (a bindable input
that may be undefined, hence `Option String`) and the private
`_defaultColor`, initialized to `"red"`.  The `defaultColor` setter
assigns `colorName || this._defaultColor`; the `mouseenter` handler calls
`highlight(this.highlightColor || this._defaultColor)`; the `mouseleave`
handler calls `highlight(null)`; and `highlight(color)` sets the host
element's `backgroundColor` style to `color`.

In TypeScript a string is falsy exactly when it is `""`, and an absent
(undefined or null) value is falsy as well.  `a || b` therefore yields
`b` when `a` is absent or the empty string, and the value of `a`
otherwise; `tsOrString` captures this for an `Option String` left operand
and a `String` right operand.  The host element's background style is
modelled as `Option String`, where `none` is the cleared/absent style
that `highlight(null)` produces.
-/

/-- TypeScript `a || b` where `a` is a possibly-absent string and `b` a
string: the result is `b` when `a` is absent or empty (falsy), and the
contents of `a` otherwise. -/
def tsOrString (a : Option String) (b : String) : String :=
  match a with
  | none => b
  | some s => if s = "" then b else s

/-- The host DOM element, reduced to the single style property the
directive touches: its `backgroundColor` style, `none` when cleared. -/
structure HostElement where
  backgroundColor : Option String
deriving Repr, DecidableEq

/-- State of `HighlightDirective`: the bindable input `highlightColor`
(which may be left unbound, hence optional) and the private field
`_defaultColor`. -/
structure HighlightDirective where
  highlightColor : Option String
  _defaultColor : String
deriving Repr, DecidableEq

/-- A freshly constructed directive: `_defaultColor = 'red'` and
`highlightColor` not yet bound. -/
def HighlightDirective.init : HighlightDirective :=
  { highlightColor := none, _defaultColor := "red" }

/-- `renderer.setElementStyle(el, 'backgroundColor', color)`: writes the
given color (possibly `null`) into the element's background style. -/
def setElementStyle (e : HostElement) (color : Option String) : HostElement :=
  { e with backgroundColor := color }

/-- The private helper `highlight(color)`: delegates to
`setElementStyle` on the host element. -/
def HighlightDirective.highlight (_d : HighlightDirective) (e : HostElement)
    (color : Option String) : HostElement :=
  setElementStyle e color

/-- The `defaultColor` input setter:
`this._defaultColor = colorName || this._defaultColor`. -/
def HighlightDirective.defaultColor (d : HighlightDirective)
    (colorName : Option String) : HighlightDirective :=
  { d with _defaultColor := tsOrString colorName d._defaultColor }

/-- The `mouseenter` host listener:
`this.highlight(this.highlightColor || this._defaultColor)`. -/
def HighlightDirective.onMouseEnter (d : HighlightDirective)
    (e : HostElement) : HostElement :=
  d.highlight e (some (tsOrString d.highlightColor d._defaultColor))

/-- The `mouseleave` host listener: `this.highlight(null)`. -/
def HighlightDirective.onMouseLeave (d : HighlightDirective)
    (e : HostElement) : HostElement :=
  d.highlight e none

/-- The operations the host framework can perform on a directive
instance: writing either bindable input, or dispatching either mouse
event to its host listener. -/
inductive DirectiveOp where
  | setDefaultColor (colorName : Option String)
  | setHighlightColor (color : Option String)
  | mouseEnter
  | mouseLeave
deriving Repr, DecidableEq

/-- One step of the directive-plus-element system under an operation. -/
def stepOp (s : HighlightDirective × HostElement) (op : DirectiveOp) :
    HighlightDirective × HostElement :=
  match op with
  | .setDefaultColor c => (s.1.defaultColor c, s.2)
  | .setHighlightColor c => ({ s.1 with highlightColor := c }, s.2)
  | .mouseEnter => (s.1, s.1.onMouseEnter s.2)
  | .mouseLeave => (s.1, s.1.onMouseLeave s.2)

/-- Run a sequence of operations from a starting state. -/
def runOps (s : HighlightDirective × HostElement) :
    List DirectiveOp → HighlightDirective × HostElement
  | [] => s
  | op :: ops => runOps (stepOp s op) ops

/-- Helper: every single step preserves non-emptiness of
`_defaultColor`. -/
theorem stepOp_defaultColor_ne_empty (s : HighlightDirective × HostElement)
    (op : DirectiveOp) (h : (s.1)._defaultColor ≠ "") :
    ((stepOp s op).1)._defaultColor ≠ "" := by
  cases op with
  | setDefaultColor c =>
    cases c with
    | none => simpa [stepOp, HighlightDirective.defaultColor, tsOrString] using h
    | some str =>
      by_cases hs : str = "" <;>
        simp_all [stepOp, HighlightDirective.defaultColor, tsOrString]
  | setHighlightColor c => simpa [stepOp] using h
  | mouseEnter => simpa [stepOp] using h
  | mouseLeave => simpa [stepOp] using h

/-- Helper: running any operation sequence preserves non-emptiness of
`_defaultColor`. -/
theorem runOps_defaultColor_ne_empty (ops : List DirectiveOp) :
    ∀ s : HighlightDirective × HostElement,
      (s.1)._defaultColor ≠ "" → ((runOps s ops).1)._defaultColor ≠ "" := by
  induction ops with
  | nil => intro s h; simpa [runOps] using h
  | cons op ops ih =>
    intro s h
    simpa [runOps] using ih (stepOp s op) (stepOp_defaultColor_ne_empty s op h)

/-- C1: whenever `highlightColor` is bound to a non-empty string, the
`mouseenter` handler sets the element's background style to exactly that
string. -/
theorem onMouseEnter_sets_activeColor (d : HighlightDirective)
    (e : HostElement) (c : String) (hset : d.highlightColor = some c)
    (hne : c ≠ "") :
    (d.onMouseEnter e).backgroundColor = some c := by
  simp [HighlightDirective.onMouseEnter, HighlightDirective.highlight,
    setElementStyle, tsOrString, hset, hne]

/-- Witness for C1 at `highlightColor = some "yellow"`. -/
theorem onMouseEnter_sets_activeColor_witness :
    (HighlightDirective.onMouseEnter ⟨some "yellow", "red"⟩
      ⟨none⟩).backgroundColor = some "yellow" :=
  onMouseEnter_sets_activeColor ⟨some "yellow", "red"⟩ ⟨none⟩ "yellow" rfl
    (by decide)

/-- C2: whenever `highlightColor` is unset, the `mouseenter` handler sets
the element's background style to the current `_defaultColor`. -/
theorem onMouseEnter_falls_back_when_unset (d : HighlightDirective)
    (e : HostElement) (hunset : d.highlightColor = none) :
    (d.onMouseEnter e).backgroundColor = some d._defaultColor := by
  simp [HighlightDirective.onMouseEnter, HighlightDirective.highlight,
    setElementStyle, tsOrString, hunset]

/-- Witness for C2: unset `highlightColor`, `_defaultColor = "violet"`. -/
theorem onMouseEnter_falls_back_when_unset_witness :
    (HighlightDirective.onMouseEnter ⟨none, "violet"⟩
      ⟨none⟩).backgroundColor = some "violet" :=
  onMouseEnter_falls_back_when_unset ⟨none, "violet"⟩ ⟨none⟩ rfl

/-- C3: the `mouseleave` handler clears the element's background style
(`highlight(null)`), for every directive state and every prior
background value. -/
theorem onMouseLeave_clears (d : HighlightDirective) (e : HostElement) :
    (d.onMouseLeave e).backgroundColor = none := rfl

/-- C4: starting from a freshly constructed directive (whatever its bound
`highlightColor`), no sequence of input-setter calls and event-handler
invocations can make `_defaultColor` empty: it starts as the non-empty
string `"red"` and the `defaultColor` setter rejects falsy input. -/
theorem defaultColor_never_empty (hc : Option String) (e0 : HostElement)
    (ops : List DirectiveOp) :
    ((runOps (HighlightDirective.mk hc "red", e0)
      ops).1)._defaultColor ≠ "" :=
  runOps_defaultColor_ne_empty ops
    (HighlightDirective.mk hc "red", e0)
    (show ("red" : String) ≠ "" by decide)

/-- C5: the `defaultColor` setter with a non-empty name replaces
`_defaultColor` by that name (leaving `highlightColor` alone), while an
empty or absent name leaves the directive state exactly unchanged; the
setter is a total function in either case. -/
theorem defaultColor_setter_spec (d : HighlightDirective)
    (colorName : Option String) :
    (∀ s : String, colorName = some s → s ≠ "" →
      d.defaultColor colorName = { d with _defaultColor := s }) ∧
    ((colorName = none ∨ colorName = some "") →
      d.defaultColor colorName = d) := by
  constructor
  · intro s hs hne
    simp [HighlightDirective.defaultColor, tsOrString, hs, hne]
  · intro h
    rcases h with h | h <;>
      simp [HighlightDirective.defaultColor, tsOrString, h]

/-- Witness for C5: setting `"blue"` replaces the fallback, setting an
absent name is a no-op. -/
theorem defaultColor_setter_spec_witness :
    HighlightDirective.defaultColor ⟨none, "red"⟩ (some "blue") =
      ⟨none, "blue"⟩ ∧
    HighlightDirective.defaultColor ⟨none, "red"⟩ none = ⟨none, "red"⟩ :=
  ⟨(defaultColor_setter_spec ⟨none, "red"⟩ (some "blue")).1 "blue" rfl
      (by decide),
    (defaultColor_setter_spec ⟨none, "red"⟩ none).2 (Or.inl rfl)⟩

/-- C6: with `highlightColor` unset, calling the `defaultColor` setter
with `"blue"` and then dispatching `mouseenter` leaves the background at
`"blue"`. -/
theorem set_blue_then_enter (d : HighlightDirective) (e : HostElement)
    (hunset : d.highlightColor = none) :
    ((d.defaultColor (some "blue")).onMouseEnter e).backgroundColor =
      some "blue" := by
  simp [HighlightDirective.defaultColor, HighlightDirective.onMouseEnter,
    HighlightDirective.highlight, setElementStyle, tsOrString, hunset]

/-- Witness for C6 at the freshly constructed directive. -/
theorem set_blue_then_enter_witness :
    ((HighlightDirective.init.defaultColor
      (some "blue")).onMouseEnter ⟨none⟩).backgroundColor = some "blue" :=
  set_blue_then_enter HighlightDirective.init ⟨none⟩ rfl

/-- C7: a directive with `highlightColor = "yellow"` and the default
`_defaultColor = "red"`: `mouseenter` sets the background to `"yellow"`,
and a subsequent `mouseleave` clears it, whatever the element's initial
background. -/
theorem yellow_enter_then_leave (e : HostElement) :
    (HighlightDirective.onMouseEnter ⟨some "yellow", "red"⟩
        e).backgroundColor = some "yellow" ∧
    (HighlightDirective.onMouseLeave ⟨some "yellow", "red"⟩
        (HighlightDirective.onMouseEnter ⟨some "yellow", "red"⟩
          e)).backgroundColor = none := by
  constructor
  · simp [HighlightDirective.onMouseEnter, HighlightDirective.highlight,
      setElementStyle, tsOrString]
  · rfl

/-- C8: every operation on the directive (either input setter and either
mouse-event handler) is a total function: from any state it yields
exactly one successor state, with no error outcome. -/
theorem directive_ops_total (s : HighlightDirective × HostElement)
    (op : DirectiveOp) :
    ∃! s' : HighlightDirective × HostElement, stepOp s op = s' :=
  ⟨stepOp s op, rfl, fun _ h => h.symm⟩

/-- C9: when `highlightColor` is bound to the empty string (not merely
unset), `mouseenter` still falls back to `_defaultColor`, because `""`
is falsy in `this.highlightColor || this._defaultColor`. -/
theorem onMouseEnter_empty_string_falls_back (d : HighlightDirective)
    (e : HostElement) (hempty : d.highlightColor = some "") :
    (d.onMouseEnter e).backgroundColor = some d._defaultColor := by
  simp [HighlightDirective.onMouseEnter, HighlightDirective.highlight,
    setElementStyle, tsOrString, hempty]

/-- Witness for C9: `highlightColor = some ""`, fallback `"red"`. -/
theorem onMouseEnter_empty_string_falls_back_witness :
    (HighlightDirective.onMouseEnter ⟨some "", "red"⟩
      ⟨some "green"⟩).backgroundColor = some "red" :=
  onMouseEnter_empty_string_falls_back ⟨some "", "red"⟩ ⟨some "green"⟩ rfl

/-- C10: the mouse-event handlers never modify the directive's own
fields: after dispatching `mouseenter` or `mouseleave`, both
`highlightColor` and `_defaultColor` are unchanged; only the element's
background style is affected. -/
theorem handlers_preserve_directive_state (d : HighlightDirective)
    (e : HostElement) :
    ((stepOp (d, e) DirectiveOp.mouseEnter).1.highlightColor =
        d.highlightColor ∧
      (stepOp (d, e) DirectiveOp.mouseEnter).1._defaultColor =
        d._defaultColor) ∧
    ((stepOp (d, e) DirectiveOp.mouseLeave).1.highlightColor =
        d.highlightColor ∧
      (stepOp (d, e) DirectiveOp.mouseLeave).1._defaultColor =
        d._defaultColor) :=
  ⟨⟨rfl, rfl⟩, ⟨rfl, rfl⟩⟩
